import Mathlib

/-!
Shallow embedding of the drawable-pipeline orchestration subsystem of the
`vide` renderer (src/drawable.rs) and of the readback arithmetic of the
offscreen backend (src/offscreen_renderer.rs).

GPU handles (shader modules, texture formats, binding resources, queues,
layers, application resources) are opaque to the orchestration code: the
code only passes them through.  They are embedded as `Nat`.  Device calls
such as `create_bind_group_layout` return, in the embedding, the descriptor
data the code assembled, since the orchestration code never inspects the
returned handle beyond passing it on.
-/

namespace Vide

/-- Opaque GPU shader-module handle (`wgpu::ShaderModule`). -/
abbrev ShaderModule := Nat

/-- Opaque texture-format value (`wgpu::TextureFormat`). -/
abbrev TextureFormat := Nat

/-- Opaque `wgpu::VertexBufferLayout` value: the orchestrator only collects
these into a list, never inspects them. -/
abbrev VertexBufferLayout := Nat

/-- Opaque command-queue handle (`wgpu::Queue`). -/
abbrev Queue := Nat

/-- Opaque shared application resource bundle (`crate::Resources`). -/
abbrev Resources := Nat

/-- Opaque current layer (`crate::Layer`). -/
abbrev Layer := Nat

/-- The shared per-frame constants record (`crate::ShaderConstants`), a POD
value pushed via push constants; the orchestrator never inspects it. -/
abbrev ShaderConstants := Nat

/-- The `wgpu::ShaderStages::all()` bitmask (VERTEX | FRAGMENT | COMPUTE). -/
def ShaderStages_all : Nat := 7

/-- The `u32` modulus, 2^32: every `as u32` cast and every `u32` operation
of the source truncates with respect to it. -/
def U32_MOD : Nat := 4294967296

/-- One entry of a bind-group-layout descriptor (`wgpu::BindGroupLayoutEntry`).
`binding` is the `binding: u32` field the orchestrator overwrites; `rest`
abstracts the remaining fields (`visibility`, `ty`, `count`), which the
orchestrator carries through untouched. -/
structure BindGroupLayoutEntry where
  binding : Nat
  rest : Nat
  deriving DecidableEq, Repr

/-- One entry of a bind-group descriptor (`wgpu::BindGroupEntry`). `binding`
is the index the orchestrator overwrites; `resource` abstracts the
`BindingResource` carried through untouched. -/
structure BindGroupEntry where
  binding : Nat
  resource : Nat
  deriving DecidableEq, Repr

/-- A created bind-group layout: in the embedding, the descriptor data passed
to `device.create_bind_group_layout`. -/
structure BindGroupLayout where
  label : String
  entries : List BindGroupLayoutEntry
  deriving DecidableEq, Repr

/-- A created bind group: the descriptor data passed to
`device.create_bind_group`. -/
structure BindGroup where
  label : String
  layout : BindGroupLayout
  entries : List BindGroupEntry
  deriving DecidableEq, Repr

/-- A `wgpu::PushConstantRange`: `stages` is the visibility bitmask, and the
half-open byte range is `rangeStart..rangeEnd` (Rust `Range<u32>`). -/
structure PushConstantRange where
  stages : Nat
  rangeStart : Nat
  rangeEnd : Nat
  deriving DecidableEq, Repr

/-- A created pipeline layout: the descriptor data passed to
`device.create_pipeline_layout`. -/
structure PipelineLayout where
  label : String
  bind_group_layouts : List BindGroupLayout
  push_constant_ranges : List PushConstantRange
  deriving DecidableEq, Repr

/-- A created render pipeline: the descriptor data passed to
`device.create_render_pipeline` (the fixed rasterization configuration of
`try_create_pipeline` is recorded in the last fields). -/
structure RenderPipeline where
  label : String
  layout : PipelineLayout
  vertex_module : ShaderModule
  vertex_entry_point : String
  vertex_buffers : List VertexBufferLayout
  fragment_module : ShaderModule
  fragment_entry_point : String
  format : TextureFormat
  alpha_blending : Bool
  sample_count : Nat
  deriving DecidableEq, Repr

/-- A command recorded into an active render pass.  The first three
constructors are the calls `DrawablePipeline::draw` issues itself
(`set_pipeline`, `set_push_constants`, `set_bind_group`); `other` stands for
any further command a drawable's own `draw` emits (instanced draws, index
buffers, ...). -/
inductive RenderCmd where
  | set_pipeline (pipeline : RenderPipeline)
  | set_push_constants (stages : Nat) (offset : Nat) (data : ShaderConstants)
  | set_bind_group (index : Nat) (group : BindGroup)
  | other (code : Nat)
  deriving DecidableEq, Repr

/-- The `DrawableReference` trait (src/drawable.rs lines 31-41): each method
defaults to `None`; a reference optionally contributes a layout entry, a
bind-group entry and a vertex-buffer layout. -/
structure DrawableReference where
  layout : Option BindGroupLayoutEntry := none
  entry : Option BindGroupEntry := none
  vertex : Option VertexBufferLayout := none
  deriving DecidableEq, Repr

/-- The `Drawable` trait object (src/drawable.rs lines 13-29): a stable name,
the ordered reference set, and the drawable's own draw logic, embedded as the
sequence of render-pass commands it appends for given inputs. -/
structure Drawable where
  name : String
  references : List DrawableReference
  draw : Queue → ShaderConstants → Resources → Layer → List RenderCmd

/-- The `DrawablePipeline` struct (src/drawable.rs lines 43-52). -/
structure DrawablePipeline where
  drawable : Drawable
  name : String
  bind_group_layout : BindGroupLayout
  bind_group : BindGroup
  render_pipeline : Option RenderPipeline

/-- Constructor `DrawablePipeline::new` (src/drawable.rs lines 55-98): collects the
drawable's name, builds the bind-group layout from the `layout()` results of
`references()` (filter_map, then enumerate and overwrite each `binding` with
`index as u32` — the usize enumerate index truncated mod 2^32), builds the
bind group the same way from the `entry()` results, and leaves the render
pipeline absent. -/
def DrawablePipeline.new (drawable : Drawable) : DrawablePipeline :=
  let name := drawable.name
  let bind_group_layout : BindGroupLayout :=
    { label := name ++ " bind group layout"
      entries :=
        (drawable.references.filterMap DrawableReference.layout).enum.map
          fun p => { p.2 with binding := p.1 % U32_MOD } }
  let bind_group : BindGroup :=
    { label := name ++ " bind group"
      layout := bind_group_layout
      entries :=
        (drawable.references.filterMap DrawableReference.entry).enum.map
          fun p => { p.2 with binding := p.1 % U32_MOD } }
  { drawable := drawable
    name := name
    bind_group_layout := bind_group_layout
    bind_group := bind_group
    render_pipeline := none }

/-- The shader-module provider interface (`crate::ShaderModules`, defined
outside src/drawable.rs). Modelled from the spec: `getVertex(name) -> Module
| LookupError`, `getFragment(name) -> Module | LookupError`; lookup failure
propagates through the `?` operator of `try_create_pipeline`. -/
structure ShaderModules where
  get_vertex : String → Except String ShaderModule
  get_fragment : String → Except String ShaderModule

/-- The pipeline-layout descriptor assembled at the start of
`try_create_pipeline` (src/drawable.rs lines 107-114): the drawable's own
bind-group layout followed by the universal one, plus one push-constant
range `0..size_of::<ShaderConstants>()` visible to all shader stages.
`shader_constants_size` stands for `std::mem::size_of::<ShaderConstants>()`,
whose concrete value lives outside the embedded sources. -/
def DrawablePipeline.pipeline_layout (self : DrawablePipeline)
    (shader_constants_size : Nat)
    (universal_bind_group_layout : BindGroupLayout) : PipelineLayout :=
  { label := self.name ++ " Pipeline Layout"
    bind_group_layouts := [self.bind_group_layout, universal_bind_group_layout]
    push_constant_ranges :=
      [{ stages := ShaderStages_all
         rangeStart := 0
         rangeEnd := shader_constants_size }] }

/-- Fallible creation `DrawablePipeline::try_create_pipeline` (src/drawable.rs lines 100-158):
assembles the pipeline layout, collects vertex-buffer layouts from the
`vertex()` results of `references()`, looks up the vertex then the fragment
shader module by name (each `?` aborts with the lookup error), and returns
the render-pipeline descriptor with the fixed configuration (entry point
"main", alpha blending, 4x multisampling). -/
def DrawablePipeline.try_create_pipeline (self : DrawablePipeline)
    (shader_constants_size : Nat) (shaders : ShaderModules)
    (format : TextureFormat)
    (universal_bind_group_layout : BindGroupLayout) :
    Except String RenderPipeline := do
  let render_pipeline_layout :=
    self.pipeline_layout shader_constants_size universal_bind_group_layout
  let vertex_buffer_layouts :=
    self.drawable.references.filterMap DrawableReference.vertex
  let vertex_module ← shaders.get_vertex self.name
  let fragment_module ← shaders.get_fragment self.name
  Except.ok
    { label := self.name ++ " Pipeline"
      layout := render_pipeline_layout
      vertex_module := vertex_module
      vertex_entry_point := "main"
      vertex_buffers := vertex_buffer_layouts
      fragment_module := fragment_module
      fragment_entry_point := "main"
      format := format
      alpha_blending := true
      sample_count := 4 }

/-- Committing creation `DrawablePipeline::create_pipeline` (src/drawable.rs lines 160-177):
attempts creation inside a validation error scope and commits the new
pipeline only when no validation diagnostic was captured and creation
succeeded.  `validation_error` is the diagnostic the device reports through
`pop_error_scope` for this attempt (external input to the code). -/
def DrawablePipeline.create_pipeline (self : DrawablePipeline)
    (shader_constants_size : Nat) (shaders : ShaderModules)
    (format : TextureFormat)
    (universal_bind_group_layout : BindGroupLayout)
    (validation_error : Option String) : DrawablePipeline :=
  let pipeline :=
    self.try_create_pipeline shader_constants_size shaders format
      universal_bind_group_layout
  if validation_error.isNone then
    match pipeline with
    | Except.ok pipeline => { self with render_pipeline := some pipeline }
    | Except.error _ => self
  else
    self

/-- Readiness predicate `DrawablePipeline::ready` (src/drawable.rs lines 179-181). -/
def DrawablePipeline.ready (self : DrawablePipeline) : Bool :=
  self.render_pipeline.isSome

/-- Per-frame `DrawablePipeline::draw` (src/drawable.rs lines 183-201): unwraps the
optional render pipeline (`none` models the unwrap panic), then appends to
the render pass, in order: `set_pipeline`, `set_push_constants` to all
stages at offset 0, `set_bind_group 0` with the private group,
`set_bind_group 1` with the universal group, and finally whatever the
drawable's own `draw` emits. -/
def DrawablePipeline.draw (self : DrawablePipeline) (queue : Queue)
    (render_pass : List RenderCmd) (constants : ShaderConstants)
    (universal_bind_group : BindGroup) (resources : Resources)
    (layer : Layer) : Option (List RenderCmd) :=
  match self.render_pipeline with
  | none => none
  | some pipeline =>
      some (render_pass ++
        [RenderCmd.set_pipeline pipeline,
         RenderCmd.set_push_constants ShaderStages_all 0 constants,
         RenderCmd.set_bind_group 0 self.bind_group,
         RenderCmd.set_bind_group 1 universal_bind_group] ++
        self.drawable.draw queue constants resources layer)

/-! Offscreen readback arithmetic (src/offscreen_renderer.rs lines 58-144).
All row arithmetic is `u32` arithmetic in the source, embedded as `Nat`
reduced mod `2^32`. -/

/-- Alignment constant `wgpu::COPY_BYTES_PER_ROW_ALIGNMENT`. -/
def COPY_BYTES_PER_ROW_ALIGNMENT : Nat := 256

/-- Row size `bytes_per_row = u32_size * width` (src/offscreen_renderer.rs line 83),
with `u32_size = size_of::<u32>() = 4`, as a `u32`. -/
def bytes_per_row (width : Nat) : Nat := 4 * width % U32_MOD

/-- The `padding` of src/offscreen_renderer.rs lines 85-86:
`COPY_BYTES_PER_ROW_ALIGNMENT - bytes_per_row % COPY_BYTES_PER_ROW_ALIGNMENT`
(never underflows; it is 256 when the row is already aligned). -/
def row_padding (width : Nat) : Nat :=
  COPY_BYTES_PER_ROW_ALIGNMENT - bytes_per_row width % COPY_BYTES_PER_ROW_ALIGNMENT

/-- Padded row size `padded_bytes_per_row = bytes_per_row + padding` (line 87), as a `u32`. -/
def padded_bytes_per_row (width : Nat) : Nat :=
  (bytes_per_row width + row_padding width) % U32_MOD

/-- Padded pixel width `padded_width = padded_bytes_per_row / u32_size` (line 88). -/
def padded_width (width : Nat) : Nat := padded_bytes_per_row width / 4

/-- Readback size `output_buffer_size = padded_bytes_per_row * height` (lines 89-90): a
`u32` product cast to `BufferAddress` only afterwards. -/
def output_buffer_size (width height : Nat) : Nat :=
  padded_bytes_per_row width * height % U32_MOD

/-- Reinterpretation `ImageBuffer::<Rgba<u8>, _>::from_raw(w, h, data)` succeeds iff the
container holds at least `w * h * 4` bytes (image crate semantics). -/
def image_from_raw_ok (w h len : Nat) : Bool := w * h * 4 ≤ len

/-- Dimensions of `crop_imm(img, x, y, w, h).to_image()` for a source image
of dimensions `(img_w, img_h)`: the image crate clamps the rectangle to the
source bounds. -/
def crop_dims (img_w img_h x y w h : Nat) : Nat × Nat :=
  (min w (img_w - min x img_w), min h (img_h - min y img_h))

/-- Dimensions of the image returned by `OffscreenRenderer::draw`
(src/offscreen_renderer.rs lines 58-144) for renderer dimensions
`(width, height)`: the readback buffer of `output_buffer_size` bytes is
reinterpreted as a `padded_width x height` image (the `from_raw` unwrap
panics, modelled as `none`, when the buffer is too small), then cropped at
the origin to `width x height`. -/
def offscreen_draw_dims (width height : Nat) : Option (Nat × Nat) :=
  if image_from_raw_ok (padded_width width) height (output_buffer_size width height) then
    some (crop_dims (padded_width width) height 0 0 width height)
  else
    none

/-! Concrete fixtures used by the witness theorems. -/

/-- A reference contributing a layout entry, a bind-group entry and a vertex
buffer, with self-assigned binding indices the orchestrator must overwrite. -/
def sampleReference1 : DrawableReference :=
  { layout := some { binding := 5, rest := 10 }
    entry := some { binding := 6, resource := 20 }
    vertex := some 3 }

/-- A second reference contributing a layout entry and a bind-group entry. -/
def sampleReference2 : DrawableReference :=
  { layout := some { binding := 7, rest := 11 }
    entry := some { binding := 8, resource := 21 } }

/-- A concrete drawable with two consistent references whose own `draw`
emits one command. -/
def sampleDrawable : Drawable :=
  { name := "sample"
    references := [sampleReference1, sampleReference2]
    draw := fun _ _ _ _ => [RenderCmd.other 99] }

/-- A shader provider that resolves every name. -/
def sampleShaders : ShaderModules :=
  { get_vertex := fun _ => Except.ok 1
    get_fragment := fun _ => Except.ok 2 }

/-- A shader provider with no modules at all: every lookup fails. -/
def missingShaders : ShaderModules :=
  { get_vertex := fun _ => Except.error "no vertex module"
    get_fragment := fun _ => Except.error "no fragment module" }

/-- A concrete universal bind-group layout. -/
def sampleUniversalLayout : BindGroupLayout :=
  { label := "universal", entries := [] }

/-- A concrete universal bind group. -/
def sampleUniversalBindGroup : BindGroup :=
  { label := "universal bind group"
    layout := sampleUniversalLayout
    entries := [] }

/-- The sample drawable's pipeline after one successful creation attempt
(no validation diagnostic, both shader lookups succeed). -/
def sampleReadyPipeline : DrawablePipeline :=
  (DrawablePipeline.new sampleDrawable).create_pipeline 16 sampleShaders 0
    sampleUniversalLayout none

/-- The render pipeline `sampleReadyPipeline` holds. -/
def sampleRenderPipeline : RenderPipeline :=
  { label := "sample Pipeline"
    layout :=
      (DrawablePipeline.new sampleDrawable).pipeline_layout 16
        sampleUniversalLayout
    vertex_module := 1
    vertex_entry_point := "main"
    vertex_buffers := [3]
    fragment_module := 2
    fragment_entry_point := "main"
    format := 0
    alpha_blending := true
    sample_count := 4 }

/-! Helper lemmas shared by several proofs. -/

/-- On a failing attempt, `create_pipeline` does not touch `render_pipeline`. -/
lemma create_pipeline_render_pipeline_of_fail (p : DrawablePipeline)
    (shader_constants_size : Nat) (shaders : ShaderModules)
    (format : TextureFormat) (universal_bind_group_layout : BindGroupLayout)
    (validation_error : Option String)
    (h : validation_error.isSome = true ∨
      ∃ e, p.try_create_pipeline shader_constants_size shaders format
        universal_bind_group_layout = Except.error e) :
    (p.create_pipeline shader_constants_size shaders format
        universal_bind_group_layout validation_error).render_pipeline =
      p.render_pipeline := by
  unfold DrawablePipeline.create_pipeline
  rcases h with h | ⟨e, h⟩
  · cases validation_error with
    | none => simp at h
    | some v => rfl
  · rw [h]
    cases validation_error <;> rfl

/-- A failing vertex or fragment lookup makes `try_create_pipeline` return
the lookup error. -/
lemma try_create_pipeline_error_of_lookup (p : DrawablePipeline)
    (shader_constants_size : Nat) (shaders : ShaderModules)
    (format : TextureFormat) (universal_bind_group_layout : BindGroupLayout)
    (h : (∃ e, shaders.get_vertex p.name = Except.error e) ∨
         (∃ e, shaders.get_fragment p.name = Except.error e)) :
    ∃ e, p.try_create_pipeline shader_constants_size shaders format
      universal_bind_group_layout = Except.error e := by
  rcases h with ⟨e, he⟩ | ⟨e, he⟩
  · exact ⟨e, by unfold DrawablePipeline.try_create_pipeline; rw [he]; rfl⟩
  · cases hv : shaders.get_vertex p.name with
    | error e2 =>
        exact ⟨e2, by unfold DrawablePipeline.try_create_pipeline; rw [hv]; rfl⟩
    | ok v =>
        exact ⟨e, by unfold DrawablePipeline.try_create_pipeline; rw [hv, he]; rfl⟩

/-! Theorems. -/

/-- C5: for every drawable, immediately after `DrawablePipeline::new` returns
the pipeline is "not ready": `render_pipeline` is `None` and `ready()` is
false (`new` is a total function of the drawable, so construction itself
never fails visibly in the orchestration code). -/
theorem new_not_ready (d : Drawable) :
    (DrawablePipeline.new d).render_pipeline = none ∧
    (DrawablePipeline.new d).ready = false := by
  constructor <;> rfl

/-- C8: the unwrap in `DrawablePipeline::draw` succeeds exactly when
`ready()` holds: `draw` reaches a result (no panic) iff a render pipeline is
installed, so calling it when `ready()` is false is the fatal failure branch
and under `ready()` the access is safe. -/
theorem draw_some_iff_ready (p : DrawablePipeline) (queue : Queue)
    (render_pass : List RenderCmd) (constants : ShaderConstants)
    (universal_bind_group : BindGroup) (resources : Resources) (layer : Layer) :
    (p.draw queue render_pass constants universal_bind_group resources
      layer).isSome = p.ready := by
  unfold DrawablePipeline.draw DrawablePipeline.ready
  cases p.render_pipeline <;> rfl

/-- C9: `create_pipeline` writes only the `render_pipeline` field; the
drawable, the stored name, the bind-group layout and the bind group are
unchanged by every invocation, successful or not (and no other operation of
the embedding returns a modified pipeline at all, so they are never mutated
after construction). -/
theorem create_pipeline_writes_only_render_pipeline (p : DrawablePipeline)
    (shader_constants_size : Nat) (shaders : ShaderModules)
    (format : TextureFormat) (universal_bind_group_layout : BindGroupLayout)
    (validation_error : Option String) :
    (p.create_pipeline shader_constants_size shaders format
        universal_bind_group_layout validation_error).drawable = p.drawable ∧
    (p.create_pipeline shader_constants_size shaders format
        universal_bind_group_layout validation_error).name = p.name ∧
    (p.create_pipeline shader_constants_size shaders format
        universal_bind_group_layout validation_error).bind_group_layout =
      p.bind_group_layout ∧
    (p.create_pipeline shader_constants_size shaders format
        universal_bind_group_layout validation_error).bind_group =
      p.bind_group := by
  unfold DrawablePipeline.create_pipeline
  cases validation_error <;>
    cases p.try_create_pipeline shader_constants_size shaders format
      universal_bind_group_layout <;>
    exact ⟨rfl, rfl, rfl, rfl⟩

/-- C2: on any failing attempt — a captured validation diagnostic or a
creation error — `create_pipeline` leaves `render_pipeline` unchanged, and
`ready()` is unchanged too; so a pipeline is installed only when no
diagnostic was captured and creation succeeded, and a previously installed
pipeline is never removed by a later failing attempt (`ready()` stays
true). -/
theorem create_pipeline_failure_keeps_pipeline (p : DrawablePipeline)
    (shader_constants_size : Nat) (shaders : ShaderModules)
    (format : TextureFormat) (universal_bind_group_layout : BindGroupLayout)
    (validation_error : Option String)
    (h : validation_error.isSome = true ∨
      ∃ e, p.try_create_pipeline shader_constants_size shaders format
        universal_bind_group_layout = Except.error e) :
    (p.create_pipeline shader_constants_size shaders format
        universal_bind_group_layout validation_error).render_pipeline =
      p.render_pipeline ∧
    (p.create_pipeline shader_constants_size shaders format
        universal_bind_group_layout validation_error).ready = p.ready := by
  have hr := create_pipeline_render_pipeline_of_fail p shader_constants_size
    shaders format universal_bind_group_layout validation_error h
  refine ⟨hr, ?_⟩
  unfold DrawablePipeline.ready
  rw [hr]

/-- Witness for C2: the sample pipeline is ready after a successful attempt;
a later attempt with a captured validation diagnostic (and missing shaders)
leaves its installed pipeline and its readiness unchanged. -/
theorem create_pipeline_failure_keeps_pipeline_witness :
    sampleReadyPipeline.ready = true ∧
    (some "validation failure" : Option String).isSome = true ∧
    ((sampleReadyPipeline.create_pipeline 16 missingShaders 0
        sampleUniversalLayout (some "validation failure")).render_pipeline =
      sampleReadyPipeline.render_pipeline ∧
     (sampleReadyPipeline.create_pipeline 16 missingShaders 0
        sampleUniversalLayout (some "validation failure")).ready =
      sampleReadyPipeline.ready) :=
  ⟨rfl, rfl,
    create_pipeline_failure_keeps_pipeline sampleReadyPipeline 16
      missingShaders 0 sampleUniversalLayout (some "validation failure")
      (Or.inl rfl)⟩

/-- C3: on a ready pipeline, one `draw` invocation extends the render pass
by exactly, and in this order: the pipeline bind, the push of the shared
constants to all shader stages at offset 0, the private bind group at group
index 0, the universal bind group at group index 1, and only then the
commands emitted by the drawable's own `draw`. -/
theorem draw_order (p : DrawablePipeline) (pl : RenderPipeline) (queue : Queue)
    (render_pass : List RenderCmd) (constants : ShaderConstants)
    (universal_bind_group : BindGroup) (resources : Resources) (layer : Layer)
    (h : p.render_pipeline = some pl) :
    p.draw queue render_pass constants universal_bind_group resources layer =
      some (render_pass ++
        [RenderCmd.set_pipeline pl,
         RenderCmd.set_push_constants ShaderStages_all 0 constants,
         RenderCmd.set_bind_group 0 p.bind_group,
         RenderCmd.set_bind_group 1 universal_bind_group] ++
        p.drawable.draw queue constants resources layer) := by
  unfold DrawablePipeline.draw
  rw [h]

/-- Witness for C3 at the concrete ready sample pipeline. -/
theorem draw_order_witness :
    sampleReadyPipeline.render_pipeline = some sampleRenderPipeline ∧
    sampleReadyPipeline.draw 0 [] 42 sampleUniversalBindGroup 0 0 =
      some ([] ++
        [RenderCmd.set_pipeline sampleRenderPipeline,
         RenderCmd.set_push_constants ShaderStages_all 0 42,
         RenderCmd.set_bind_group 0 sampleReadyPipeline.bind_group,
         RenderCmd.set_bind_group 1 sampleUniversalBindGroup] ++
        sampleReadyPipeline.drawable.draw 0 42 0 0) :=
  ⟨rfl,
    draw_order sampleReadyPipeline sampleRenderPipeline 0 [] 42
      sampleUniversalBindGroup 0 0 rfl⟩

/-- C6: if no pipeline was ever installed and the provider has no matching
vertex or fragment module for this pipeline's name, `create_pipeline` leaves
`ready()` false for any captured diagnostic; it returns plain state (its
type has no error channel), so no error is escalated to the caller. -/
theorem create_pipeline_lookup_failure_not_ready (p : DrawablePipeline)
    (shader_constants_size : Nat) (shaders : ShaderModules)
    (format : TextureFormat) (universal_bind_group_layout : BindGroupLayout)
    (validation_error : Option String)
    (h0 : p.render_pipeline = none)
    (h : (∃ e, shaders.get_vertex p.name = Except.error e) ∨
         (∃ e, shaders.get_fragment p.name = Except.error e)) :
    (p.create_pipeline shader_constants_size shaders format
      universal_bind_group_layout validation_error).ready = false := by
  have htry := try_create_pipeline_error_of_lookup p shader_constants_size
    shaders format universal_bind_group_layout h
  have hr := create_pipeline_render_pipeline_of_fail p shader_constants_size
    shaders format universal_bind_group_layout validation_error (Or.inr htry)
  unfold DrawablePipeline.ready
  rw [hr, h0]
  rfl

/-- Witness for C6: a freshly constructed sample pipeline stays not ready
after a creation attempt against an empty shader provider. -/
theorem create_pipeline_lookup_failure_not_ready_witness :
    (DrawablePipeline.new sampleDrawable).render_pipeline = none ∧
    (∃ e, missingShaders.get_vertex (DrawablePipeline.new sampleDrawable).name =
      Except.error e) ∧
    ((DrawablePipeline.new sampleDrawable).create_pipeline 16 missingShaders 0
      sampleUniversalLayout none).ready = false :=
  ⟨rfl, ⟨"no vertex module", rfl⟩,
    create_pipeline_lookup_failure_not_ready (DrawablePipeline.new sampleDrawable)
      16 missingShaders 0 sampleUniversalLayout none rfl
      (Or.inl ⟨"no vertex module", rfl⟩)⟩

/-- C7: every pipeline returned by a successful creation carries a pipeline
layout built from exactly the two bind-group layouts [private, universal]
in that order, and exactly one push-constant range from byte 0 to the size
of the shared per-frame constants record, visible to all shader stages. -/
theorem created_pipeline_layout (p : DrawablePipeline)
    (shader_constants_size : Nat) (shaders : ShaderModules)
    (format : TextureFormat) (universal_bind_group_layout : BindGroupLayout)
    (rp : RenderPipeline)
    (h : p.try_create_pipeline shader_constants_size shaders format
      universal_bind_group_layout = Except.ok rp) :
    rp.layout.bind_group_layouts =
      [p.bind_group_layout, universal_bind_group_layout] ∧
    rp.layout.push_constant_ranges =
      [{ stages := ShaderStages_all
         rangeStart := 0
         rangeEnd := shader_constants_size }] := by
  unfold DrawablePipeline.try_create_pipeline at h
  cases hv : shaders.get_vertex p.name with
  | error e => rw [hv] at h; exact Except.noConfusion h
  | ok v =>
    rw [hv] at h
    cases hf : shaders.get_fragment p.name with
    | error e => rw [hf] at h; exact Except.noConfusion h
    | ok f =>
      rw [hf] at h
      have hrp := Except.ok.inj h
      rw [← hrp]
      exact ⟨rfl, rfl⟩

/-- Witness for C7 at the concrete sample pipeline and resolving provider. -/
theorem created_pipeline_layout_witness :
    (DrawablePipeline.new sampleDrawable).try_create_pipeline 16 sampleShaders
      0 sampleUniversalLayout = Except.ok sampleRenderPipeline ∧
    (sampleRenderPipeline.layout.bind_group_layouts =
      [(DrawablePipeline.new sampleDrawable).bind_group_layout,
        sampleUniversalLayout] ∧
     sampleRenderPipeline.layout.push_constant_ranges =
      [{ stages := ShaderStages_all, rangeStart := 0, rangeEnd := 16 }]) :=
  ⟨rfl,
    created_pipeline_layout (DrawablePipeline.new sampleDrawable) 16
      sampleShaders 0 sampleUniversalLayout sampleRenderPipeline rfl⟩

/-- Length of an enumerate-then-map, as used by both collections of
`DrawablePipeline::new`. -/
lemma enum_map_length {α β : Type} (l : List α) (f : Nat × α → β) :
    (l.enum.map f).length = l.length := by
  simp [List.enum_length]

/-- Element lookup of an enumerate-then-map: position `i` holds `f (i, a)`
for the `i`-th element `a` of the underlying list. -/
lemma enum_map_getElem {α β : Type} (l : List α) (f : Nat × α → β) (i : Nat) :
    (l.enum.map f)[i]? = (l[i]?).map fun a => f (i, a) := by
  rw [List.getElem?_map, List.getElem?_enum, Option.map_map]
  rfl

/-- Filtering a replicated list through a filter that accepts its element
replicates the filtered element. -/
lemma filterMap_replicate_some {α β : Type} (f : α → Option β) (a : α) (b : β)
    (h : f a = some b) (n : Nat) :
    (List.replicate n a).filterMap f = List.replicate n b := by
  induction n with
  | zero => rfl
  | succ n ih =>
      rw [List.replicate_succ, List.filterMap_cons, h, ih, List.replicate_succ]

/-- A drawable with 2^32 + 1 copies of a reference contributing both a
layout and an entry: the enumerate index reaches 2^32, where the
`index as u32` cast of src/drawable.rs lines 68 and 84 wraps to 0. -/
def hugeDrawable : Drawable :=
  { name := "huge"
    references := List.replicate 4294967297 sampleReference1
    draw := fun _ _ _ _ => [] }

/-- C1 counterexample: on a drawable whose `layout()` and `entry()` filters
agree on the count N = 2^32 + 1, the binding index stored at filtered
position 2^32 of both tables is `2^32 as u32 = 0`, not 2^32 — so the built
entries are not indexed 0..N-1, refuting the claim as stated for this
input. -/
theorem new_bind_group_table_wrap :
    (hugeDrawable.references.filterMap DrawableReference.layout).length =
      4294967297 ∧
    (hugeDrawable.references.filterMap DrawableReference.entry).length =
      4294967297 ∧
    ((DrawablePipeline.new hugeDrawable).bind_group_layout.entries[4294967296]?).map
      BindGroupLayoutEntry.binding = some 0 ∧
    ((DrawablePipeline.new hugeDrawable).bind_group.entries[4294967296]?).map
      BindGroupEntry.binding = some 0 ∧
    (0 : Nat) ≠ 4294967296 := by
  have hfl : hugeDrawable.references.filterMap DrawableReference.layout =
      List.replicate 4294967297 { binding := 5, rest := 10 } :=
    filterMap_replicate_some DrawableReference.layout sampleReference1 _ rfl _
  have hfe : hugeDrawable.references.filterMap DrawableReference.entry =
      List.replicate 4294967297 { binding := 6, resource := 20 } :=
    filterMap_replicate_some DrawableReference.entry sampleReference1 _ rfl _
  have hbgl : (DrawablePipeline.new hugeDrawable).bind_group_layout.entries =
      (hugeDrawable.references.filterMap DrawableReference.layout).enum.map
        (fun p => { binding := p.1 % U32_MOD, rest := p.2.rest }) := rfl
  have hbg : (DrawablePipeline.new hugeDrawable).bind_group.entries =
      (hugeDrawable.references.filterMap DrawableReference.entry).enum.map
        (fun p => { binding := p.1 % U32_MOD, resource := p.2.resource }) := rfl
  refine ⟨?_, ?_, ?_, ?_, by decide⟩
  · rw [hfl, List.length_replicate]
  · rw [hfe, List.length_replicate]
  · rw [hbgl, enum_map_getElem, hfl, List.getElem?_replicate,
      if_pos (by decide : (4294967296 : Nat) < 4294967297)]
    rfl
  · rw [hbg, enum_map_getElem, hfe, List.getElem?_replicate,
      if_pos (by decide : (4294967296 : Nat) < 4294967297)]
    rfl

/-- C1 amended: when the `layout()` and `entry()` filters of a drawable's
references agree on a count N with N at most 2^32 (so that the `index as
u32` truncation of src/drawable.rs lines 68 and 84 does not wrap), the
built bind-group layout and bind group each hold exactly N entries; the
entry at position i is the i-th element of the corresponding filtered
sequence with its binding index overwritten to i, so indices run 0..N-1 in
filtered order and any self-assigned index is discarded. -/
theorem new_bind_group_table (d : Drawable) (N : Nat) (hN : N ≤ U32_MOD)
    (hL : (d.references.filterMap DrawableReference.layout).length = N)
    (hE : (d.references.filterMap DrawableReference.entry).length = N) :
    (DrawablePipeline.new d).bind_group_layout.entries.length = N ∧
    (DrawablePipeline.new d).bind_group.entries.length = N ∧
    (∀ i, i < N →
      ((DrawablePipeline.new d).bind_group_layout.entries[i]? =
        ((d.references.filterMap DrawableReference.layout)[i]?).map
          fun e => { e with binding := i }) ∧
      ((DrawablePipeline.new d).bind_group.entries[i]? =
        ((d.references.filterMap DrawableReference.entry)[i]?).map
          fun e => { e with binding := i })) := by
  have hbgl : (DrawablePipeline.new d).bind_group_layout.entries =
      (d.references.filterMap DrawableReference.layout).enum.map
        (fun p => { binding := p.1 % U32_MOD, rest := p.2.rest }) := rfl
  have hbg : (DrawablePipeline.new d).bind_group.entries =
      (d.references.filterMap DrawableReference.entry).enum.map
        (fun p => { binding := p.1 % U32_MOD, resource := p.2.resource }) := rfl
  refine ⟨?_, ?_, fun i hi => ⟨?_, ?_⟩⟩
  · rw [hbgl, enum_map_length]
    exact hL
  · rw [hbg, enum_map_length]
    exact hE
  · rw [hbgl, enum_map_getElem]
    simp only [Nat.mod_eq_of_lt (lt_of_lt_of_le hi hN)]
  · rw [hbg, enum_map_getElem]
    simp only [Nat.mod_eq_of_lt (lt_of_lt_of_le hi hN)]

/-- Witness for C1 at the two-reference sample drawable (self-assigned
binding indices 5 and 7 are overwritten with 0 and 1). -/
theorem new_bind_group_table_witness :
    (2 ≤ U32_MOD) ∧
    (sampleDrawable.references.filterMap DrawableReference.layout).length = 2 ∧
    (sampleDrawable.references.filterMap DrawableReference.entry).length = 2 ∧
    ((DrawablePipeline.new sampleDrawable).bind_group_layout.entries.length = 2 ∧
     (DrawablePipeline.new sampleDrawable).bind_group.entries.length = 2 ∧
     (∀ i, i < 2 →
       ((DrawablePipeline.new sampleDrawable).bind_group_layout.entries[i]? =
         ((sampleDrawable.references.filterMap DrawableReference.layout)[i]?).map
           fun e => { e with binding := i }) ∧
       ((DrawablePipeline.new sampleDrawable).bind_group.entries[i]? =
         ((sampleDrawable.references.filterMap DrawableReference.entry)[i]?).map
           fun e => { e with binding := i }))) :=
  ⟨by decide, by decide, by decide,
    new_bind_group_table sampleDrawable 2 (by decide) (by decide) (by decide)⟩

/-- A reference contributing a layout entry but no bind-group entry: the
`layout()` and `entry()` filters of a drawable holding it disagree. -/
def layoutOnlyReference : DrawableReference :=
  { layout := some { binding := 0, rest := 30 } }

/-- A drawable with two references where the first supplies a `layout()`
without an `entry()`. -/
def mismatchedDrawable : Drawable :=
  { name := "mismatched"
    references := [layoutOnlyReference, sampleReference2]
    draw := fun _ _ _ _ => [] }

/-- C4 counterexample: on a drawable whose first reference supplies a
layout without an entry, `DrawablePipeline::new` returns normally — it has
no failure channel and runs no validation pass — and silently produces a
mismatched binding table: two layout entries against one bind-group entry,
with the surviving entry re-indexed to 0 so the two tables also disagree in
order. -/
theorem new_mismatch_not_flagged :
    (DrawablePipeline.new mismatchedDrawable).bind_group_layout.entries.length = 2 ∧
    (DrawablePipeline.new mismatchedDrawable).bind_group.entries.length = 1 ∧
    (DrawablePipeline.new mismatchedDrawable).bind_group_layout.entries.length ≠
      (DrawablePipeline.new mismatchedDrawable).bind_group.entries.length := by
  refine ⟨rfl, rfl, ?_⟩
  decide

/-- C4 amended: construction applies no consistency check between the two
filtered sequences — for every drawable, `new` returns normally with the
layout entry count and the bind-group entry count each determined
independently by its own filter, so references whose `layout()` and
`entry()` availability disagree yield a silently mismatched binding table
(detection is left to GPU-level validation outside this code). -/
theorem new_counts_independent (d : Drawable) :
    (DrawablePipeline.new d).bind_group_layout.entries.length =
      (d.references.filterMap DrawableReference.layout).length ∧
    (DrawablePipeline.new d).bind_group.entries.length =
      (d.references.filterMap DrawableReference.entry).length := by
  have hbgl : (DrawablePipeline.new d).bind_group_layout.entries =
      (d.references.filterMap DrawableReference.layout).enum.map
        (fun p => { binding := p.1 % U32_MOD, rest := p.2.rest }) := rfl
  have hbg : (DrawablePipeline.new d).bind_group.entries =
      (d.references.filterMap DrawableReference.entry).enum.map
        (fun p => { binding := p.1 % U32_MOD, resource := p.2.resource }) := rfl
  rw [hbgl, hbg, enum_map_length, enum_map_length]
  exact ⟨rfl, rfl⟩

/-- C10 counterexample: at renderer width 2^30 (height 1) the u32 row
arithmetic wraps — `u32_size * width` overflows to 0, so the padded row is
256 bytes, the padded width collapses to 64, and the returned image is
64 x 1 instead of 2^30 x 1. -/
theorem offscreen_draw_dims_overflow :
    offscreen_draw_dims 1073741824 1 = some (64, 1) ∧ 64 ≠ 1073741824 := by
  constructor
  · decide
  · decide

/-- C10 amended: for every width and height greater than zero such that the
u32 row arithmetic does not overflow (4 * width + 256 < 2^32 and
padded_bytes_per_row * height < 2^32), the image returned by
`OffscreenRenderer::draw` has dimensions exactly (width, height); the
readback rows are padded so that `padded_bytes_per_row` is a positive
multiple of COPY_BYTES_PER_ROW_ALIGNMENT (256) and at least
`bytes_per_row`, and the padded columns are cropped away before the image
is returned. -/
theorem offscreen_draw_dims_exact (width height : Nat)
    (hw : 0 < width) (hh : 0 < height)
    (hwB : 4 * width + 256 < U32_MOD)
    (hhB : padded_bytes_per_row width * height < U32_MOD) :
    offscreen_draw_dims width height = some (width, height) ∧
    padded_bytes_per_row width % COPY_BYTES_PER_ROW_ALIGNMENT = 0 ∧
    0 < padded_bytes_per_row width ∧
    bytes_per_row width ≤ padded_bytes_per_row width := by
  have hb : bytes_per_row width = 4 * width := by
    unfold bytes_per_row U32_MOD
    unfold U32_MOD at hwB
    omega
  have hpb : padded_bytes_per_row width =
      4 * width + (256 - 4 * width % 256) := by
    unfold padded_bytes_per_row row_padding bytes_per_row
      COPY_BYTES_PER_ROW_ALIGNMENT U32_MOD
    unfold U32_MOD at hwB
    omega
  have hmod : padded_bytes_per_row width % 256 = 0 := by
    rw [hpb]
    omega
  have h4 : 4 ∣ padded_bytes_per_row width := by
    rw [hpb]
    omega
  have hwle : width ≤ padded_width width := by
    unfold padded_width
    rw [hpb]
    omega
  have hobs : output_buffer_size width height =
      padded_bytes_per_row width * height := by
    unfold output_buffer_size
    exact Nat.mod_eq_of_lt hhB
  have hpw4 : padded_width width * 4 = padded_bytes_per_row width := by
    unfold padded_width
    exact Nat.div_mul_cancel h4
  have hraw : image_from_raw_ok (padded_width width) height
      (output_buffer_size width height) = true := by
    unfold image_from_raw_ok
    rw [hobs]
    simp only [decide_eq_true_eq]
    calc padded_width width * height * 4
        = padded_width width * 4 * height := by ring
      _ = padded_bytes_per_row width * height := by rw [hpw4]
      _ ≤ padded_bytes_per_row width * height := le_refl _
  refine ⟨?_, hmod, ?_, ?_⟩
  · unfold offscreen_draw_dims
    rw [if_pos hraw]
    have hcrop : crop_dims (padded_width width) height 0 0 width height =
        (width, height) := by
      unfold crop_dims
      simp [Nat.min_eq_left hwle]
    rw [hcrop]
  · rw [hpb]
    omega
  · rw [hb, hpb]
    omega

/-- Witness for the amended C10 at renderer dimensions 100 x 50 (row bytes
400, padded to 512). -/
theorem offscreen_draw_dims_exact_witness :
    (0 < 100 ∧ 0 < 50 ∧ 4 * 100 + 256 < U32_MOD ∧
      padded_bytes_per_row 100 * 50 < U32_MOD) ∧
    (offscreen_draw_dims 100 50 = some (100, 50) ∧
     padded_bytes_per_row 100 % COPY_BYTES_PER_ROW_ALIGNMENT = 0 ∧
     0 < padded_bytes_per_row 100 ∧
     bytes_per_row 100 ≤ padded_bytes_per_row 100) :=
  ⟨⟨by decide, by decide, by decide, by decide⟩,
    offscreen_draw_dims_exact 100 50 (by decide) (by decide) (by decide)
      (by decide)⟩

end Vide
